import Mathlib

/-!
Verification development for the process-supervision engine in
`src/beta/rust/src/run.rs` of the Minning repository.

The Rust source is shallowly embedded: every function that touches the
operating system (filesystem existence checks, the external `chmod`,
`renice`, `which`, `ps` and `pkill` commands, process spawning and
status polling) is modelled as a pure Lean function over an explicit
environment record that carries the outcomes the operating system would
deliver.  Control flow, state updates and returned values follow the
Rust code line by line; doc comments on each definition cite the lines
of `run.rs` they embed.
-/

/-- The error enumeration `XmrError` from run.rs lines 13-19.  The
payloads of the Rust variants are formatted messages; they are kept as
plain strings here. -/
inductive XmrError where
  | IoError (msg : String)
  | EnvError (msg : String)
  | ExecutionError (msg : String)
  | PermissionError (msg : String)
deriving Repr, DecidableEq

/-! ### Executable locator: `get_xmr_path`, run.rs lines 58-94 -/

/-- Environment of `get_xmr_path`: the value of the HOME variable (the
Rust `env::var("HOME")` result), the current directory (the
`env::current_dir()` result), which filesystem paths exist, and the
trimmed-relevant stdout of a successful `which xmr` invocation (`none`
models a `which` that could not be run or exited unsuccessfully). -/
structure LocEnv where
  home : Option String
  cwd : Option String
  pathExists : String → Bool
  whichOut : Option String

/-- Candidate from HOME, run.rs line 61: the home directory followed by
`/xmr/xmr`. -/
def homeCandidate (h : String) : String := h ++ "/xmr/xmr"

/-- Candidate from the current directory, run.rs line 69:
`current_dir.join("xmr").join("xmr")`. -/
def cwdCandidate (d : String) : String := d ++ "/xmr/xmr"

/-- The fixed system-wide candidate, run.rs line 76. -/
def usrLocalCandidate : String := "/usr/local/bin/xmr"

/-- The message of the final error, run.rs line 93. -/
def notFoundMsg : String := "Could not find XMR executable in any standard location"

/-- Fourth step of `get_xmr_path`, run.rs lines 82-93: ask `which xmr`;
on a successful run with nonempty trimmed stdout return that path,
otherwise fall through to the `EnvError`. -/
def locStep4 (env : LocEnv) : Except XmrError String :=
  match env.whichOut with
  | some out =>
      if out.trim ≠ "" then Except.ok out.trim
      else Except.error (XmrError.EnvError notFoundMsg)
  | none => Except.error (XmrError.EnvError notFoundMsg)

/-- Third step of `get_xmr_path`, run.rs lines 75-79: the fixed
`/usr/local/bin/xmr` location. -/
def locStep3 (env : LocEnv) : Except XmrError String :=
  if env.pathExists usrLocalCandidate then Except.ok usrLocalCandidate
  else locStep4 env

/-- Second step of `get_xmr_path`, run.rs lines 67-73: the candidate
under the current working directory. -/
def locStep2 (env : LocEnv) : Except XmrError String :=
  match env.cwd with
  | some d =>
      if env.pathExists (cwdCandidate d) then Except.ok (cwdCandidate d)
      else locStep3 env
  | none => locStep3 env

/-- `get_xmr_path`, run.rs lines 58-94.  Tries the HOME-derived
candidate, then the current-directory candidate, then
`/usr/local/bin/xmr`, then a PATH lookup through `which`; returns the
first hit and `EnvError` when everything misses. -/
def get_xmr_path (env : LocEnv) : Except XmrError String :=
  match env.home with
  | some h =>
      if env.pathExists (homeCandidate h) then Except.ok (homeCandidate h)
      else locStep2 env
  | none => locStep2 env

/-- The HOME step of the locator yields nothing: HOME is unset, or the
HOME-derived candidate does not exist. -/
def homeMiss (env : LocEnv) : Prop :=
  ∀ h, env.home = some h → env.pathExists (homeCandidate h) = false

/-- The current-directory step of the locator yields nothing. -/
def cwdMiss (env : LocEnv) : Prop :=
  ∀ d, env.cwd = some d → env.pathExists (cwdCandidate d) = false

/-- The `which` step of the locator yields nothing: the command failed,
or its trimmed stdout is empty. -/
def whichMiss (env : LocEnv) : Prop :=
  ∀ out, env.whichOut = some out → out.trim = ""

/-! ### Permission fixing: `set_executable_permissions`, run.rs lines 97-149 -/

/-- Environment of `set_executable_permissions`: the current permission
bits of the target file and the outcomes of the three fallible
operations.  `chmodOk` is true when the external `chmod +x` command ran
and exited successfully; both a nonzero chmod exit and a failure to run
chmod take the same fallback path in the source (lines 111-117), so one
flag suffices.  `metadataOk` and `setPermsOk` are the outcomes of
`fs::metadata` and `fs::set_permissions`. -/
structure PermEnv where
  mode0 : Nat
  chmodOk : Bool
  metadataOk : Bool
  setPermsOk : Bool
deriving Repr, DecidableEq

/-- Effect of a successful `chmod +x` on the permission bits: the three
execute bits are set. -/
def chmodPlusX (m : Nat) : Nat := m ||| 0o111

/-- The message prefix of the fallback `set_permissions` error, run.rs
line 133. -/
def permSetFailMsg : String := "Failed to set permissions"

/-- The message prefix of the metadata error, run.rs line 138. -/
def permMetaFailMsg : String := "Failed to get file metadata"

/-- `set_executable_permissions`, run.rs lines 97-149, on the unix
path.  First runs `chmod +x`; on success it returns `Ok` with the file
now carrying its execute bits.  Otherwise it falls back to reading the
file metadata and writing mode `0o755` through `fs::set_permissions`;
a failure of either fallback operation is a `PermissionError`.  The
returned value is the resulting permission bits of the file. -/
def set_executable_permissions (env : PermEnv) : Except XmrError Nat :=
  if env.chmodOk then Except.ok (chmodPlusX env.mode0)
  else if env.metadataOk then
    if env.setPermsOk then Except.ok 0o755
    else Except.error (XmrError.PermissionError permSetFailMsg)
  else Except.error (XmrError.PermissionError permMetaFailMsg)

/-- Two consecutive applications of `set_executable_permissions` to the
same file: the second application starts from the permission bits the
first one produced. -/
def applyPermTwice (env : PermEnv) : Except XmrError Nat :=
  match set_executable_permissions env with
  | Except.ok m => set_executable_permissions ⟨m, env.chmodOk, env.metadataOk, env.setPermsOk⟩
  | Except.error e => Except.error e

/-! ### Process hardening: `set_process_priority`, run.rs lines 215-263 -/

/-- Environment of `set_process_priority` on Linux: the outcome of the
`renice` invocation (`none` models a failure to run the command,
`some b` a run whose exit status succeeded iff `b`), the outcome of the
fallback `nice` invocation, whether the write to
`/proc/self/oom_score_adj` succeeded, and the outcome of the fallback
`echo` invocation (which only drives a debug log line). -/
structure PrioEnv where
  reniceRes : Option Bool
  niceRes : Option Bool
  oomWriteOk : Bool
  echoRes : Option Bool
deriving Repr, DecidableEq

/-- Warning text of run.rs line 228. -/
def wReniceFail : String := "Failed to set nice value"

/-- Warning text of run.rs line 234. -/
def wReniceErr : String := "Failed to execute renice command"

/-- Warning text of run.rs line 242. -/
def wNiceAlso : String := "Nice command also failed"

/-- Warning text of run.rs line 250. -/
def wOomFail : String := "Failed to set OOM score"

/-- The warning log lines `set_process_priority` emits, run.rs lines
218-260: one per failed hardening operation.  Every branch of the
source merely logs and continues. -/
def prioWarnings (env : PrioEnv) : List String :=
  let w1 := match env.reniceRes with
    | some true => []
    | some false => [wReniceFail]
    | none => [wReniceErr]
  let w2 := match env.niceRes with
    | some _ => []
    | none => [wNiceAlso]
  let w3 := if env.oomWriteOk then [] else [wOomFail]
  w1 ++ w2 ++ w3

/-- `set_process_priority`, run.rs lines 215-263.  All hardening
failures are logged as warnings; the function ends with `Ok(())` on
every path (line 262).  The payload records the warning lines. -/
def set_process_priority (env : PrioEnv) : Except XmrError (List String) :=
  Except.ok (prioWarnings env)

/-! ### Startup pipelines of the two supervisors

`run_xmr_resilient` (run.rs lines 379-396) and
`run_xmr_super_resilient` (lines 415-433) both run
`get_xmr_path()?`, then `set_executable_permissions(..)?`, then
`set_process_priority()?`, and only then install the Ctrl-C handler and
spawn their watchdog threads (one thread in resilient mode, three in
super-resilient mode).  The models below return the propagated error or
the resolved path, paired with the number of watchdog threads spawned
before returning. -/

/-- Startup of `run_xmr_resilient`, run.rs lines 379-396: the error
short-circuits of the three `?` operators, then one watchdog thread. -/
def run_xmr_resilient_startup (loc : LocEnv) (perm : PermEnv) (prio : PrioEnv) :
    Except XmrError String × Nat :=
  match get_xmr_path loc with
  | Except.error e => (Except.error e, 0)
  | Except.ok p =>
    match set_executable_permissions perm with
    | Except.error e => (Except.error e, 0)
    | Except.ok _ =>
      match set_process_priority prio with
      | Except.error e => (Except.error e, 0)
      | Except.ok _ => (Except.ok p, 1)

/-- Startup of `run_xmr_super_resilient`, run.rs lines 415-433: same
pipeline, then three watchdog threads (the `(0..3).map` at line 433). -/
def run_xmr_super_resilient_startup (loc : LocEnv) (perm : PermEnv) (prio : PrioEnv) :
    Except XmrError String × Nat :=
  match get_xmr_path loc with
  | Except.error e => (Except.error e, 0)
  | Except.ok p =>
    match set_executable_permissions perm with
    | Except.error e => (Except.error e, 0)
    | Except.ok _ =>
      match set_process_priority prio with
      | Except.error e => (Except.error e, 0)
      | Except.ok _ => (Except.ok p, 3)

/-! ### Cancellation flag: `setup_ctrlc_handler`, run.rs lines 196-212

The flag is an `Arc<AtomicBool>` created with value `true` (line 197).
The installed Ctrl-C handler is the only code in the repository that
stores to it, and its only store is `r.store(false, Ordering::SeqCst)`
(line 202); every other occurrence is a `load`.  The model below is the
write set of the flag: an execution is a list of the stores performed
(one per handler invocation), folded over the initial value. -/

/-- The single kind of store the program performs on the shared flag
after initialisation: the store of `false` inside the Ctrl-C handler,
run.rs line 202. -/
inductive FlagWrite where
  | handlerStore
deriving Repr, DecidableEq

/-- Applying one store to the flag: the handler stores `false`. -/
def flagApply (_v : Bool) (w : FlagWrite) : Bool :=
  match w with
  | FlagWrite.handlerStore => false

/-- Initial value of the flag, run.rs line 197: `AtomicBool::new(true)`. -/
def flagInit : Bool := true

/-- Value of the flag after a sequence of stores. -/
def flagValue (ws : List FlagWrite) : Bool := ws.foldl flagApply flagInit

/-! ### Watchdog of resilient mode: `create_watchdog`, run.rs lines 299-377 -/

/-- Outcome of `child.try_wait()` on an owned child: the child exited
(with a successful status or not), is still running, or the status
check itself errored. -/
inductive TryWaitRes where
  | exited (success : Bool)
  | stillRunning
  | checkErr
deriving Repr, DecidableEq

/-- Outcome of `Command::new(..).spawn()`. -/
inductive SpawnRes where
  | ok
  | err
deriving Repr, DecidableEq

/-- Outcome of the `ps -p <pid> -o state` health probe of the
super-resilient watchdog: the probe ran and reported whether the
process state string contains `R` or `S`, or the probe errored. -/
inductive HealthRes where
  | probed (runnable : Bool)
  | err
deriving Repr, DecidableEq

/-- Observable side effects of one watchdog loop iteration, in order. -/
inductive Effect where
  | longPause (secs : Nat)
  | pkillStray
  | spawnAttempt
  | backoffSleep (secs : Nat)
  | pollSleep (ms : Nat)
  | killChild
deriving Repr, DecidableEq

/-- State of the resilient-mode watchdog, run.rs lines 301-302: whether
a child handle is owned, and the consecutive-failure counter. -/
structure WDState where
  child : Bool
  failures : Nat
deriving Repr, DecidableEq

/-- Initial watchdog state, run.rs lines 301-302: no child, zero
failures. -/
def wdInit : WDState := ⟨false, 0⟩

/-- `MAX_FAILURES`, run.rs line 303. -/
def MAX_FAILURES : Nat := 5

/-- Inputs consumed by one iteration of the resilient-mode watchdog
loop body. -/
structure WDEnv where
  tryWait : TryWaitRes
  spawn : SpawnRes
deriving Repr, DecidableEq

/-- The `need_restart` computation, run.rs lines 307-329: with no child
it is true; with a child, `try_wait` decides it, a nonzero exit or a
status-check error incrementing the consecutive-failure counter and a
clean exit resetting it to zero. -/
def wdCheck (s : WDState) (r : TryWaitRes) : WDState × Bool :=
  if s.child then
    match r with
    | TryWaitRes.exited success =>
        if success then (⟨s.child, 0⟩, true)
        else (⟨s.child, s.failures + 1⟩, true)
    | TryWaitRes.stillRunning => (s, false)
    | TryWaitRes.checkErr => (⟨s.child, s.failures + 1⟩, true)
  else (s, true)

/-- The backoff of a failed spawn in `create_watchdog`, run.rs line
358: `5 * (1 << consecutive_failures.min(10))` seconds, computed from
the already-incremented counter. -/
def wdBackoff (failures : Nat) : Nat := 5 * 2 ^ min failures 10

/-- The restart block, run.rs lines 331-362: a long 30-second pause
first when the counter has reached `MAX_FAILURES`, then a spawn
attempt; success stores the child and zeroes the counter, failure
increments the counter and sleeps the exponential backoff. -/
def wdRestart (s : WDState) (sp : SpawnRes) : WDState × List Effect :=
  let pre := if MAX_FAILURES ≤ s.failures then [Effect.longPause 30] else []
  match sp with
  | SpawnRes.ok => (⟨true, 0⟩, pre ++ [Effect.spawnAttempt])
  | SpawnRes.err =>
      (⟨s.child, s.failures + 1⟩,
       pre ++ [Effect.spawnAttempt, Effect.backoffSleep (wdBackoff (s.failures + 1))])

/-- One full iteration of the `create_watchdog` loop body, run.rs lines
305-366: the status check, the restart block when needed, and the
100 ms poll sleep of line 366. -/
def wdStep (s : WDState) (e : WDEnv) : WDState × List Effect :=
  let c := wdCheck s e.tryWait
  let r := if c.2 then wdRestart c.1 e.spawn else (c.1, [])
  (r.1, r.2 ++ [Effect.pollSleep 100])

/-- The post-loop shutdown of `create_watchdog`, run.rs lines 370-375:
kill the owned child if present and release the handle. -/
def wdShutdown (s : WDState) : WDState × List Effect :=
  if s.child then (⟨false, s.failures⟩, [Effect.killChild]) else (s, [])

/-- Run of the `create_watchdog` loop over a finite trace of inputs.
Each trace element carries the value the iteration reads from the
shared flag (the `while running.load(..)` condition, run.rs line 305)
and the iteration inputs.  Reading `false` exits the loop and performs
the shutdown block; the third component records whether the loop was
exited.  An exhausted trace with the flag still `true` leaves the loop
pending. -/
def runWD : WDState → List (Bool × WDEnv) → WDState × List Effect × Bool
  | s, [] => (s, [], false)
  | s, (flag, e) :: rest =>
    if flag then
      let st := wdStep s e
      let k := runWD st.1 rest
      (k.1, st.2 ++ k.2.1, k.2.2)
    else
      ((wdShutdown s).1, (wdShutdown s).2, true)

/-! ### Watchdogs of super-resilient mode, run.rs lines 437-524 -/

/-- State of one super-resilient watchdog, run.rs lines 439-441:
child-handle presence, consecutive-failure counter, and the current
backoff in seconds (initially 1). -/
structure SuperState where
  child : Bool
  failures : Nat
  backoff : Nat
deriving Repr, DecidableEq

/-- Initial super-resilient watchdog state, run.rs lines 439-441. -/
def superInit : SuperState := ⟨false, 0, 1⟩

/-- The backoff cap of run.rs line 480: 300 seconds. -/
def BACKOFF_CAP : Nat := 300

/-- Inputs consumed by one iteration of a super-resilient watchdog
loop body. -/
structure SuperEnv where
  tryWait : TryWaitRes
  spawn : SpawnRes
  health : HealthRes
deriving Repr, DecidableEq

/-- The `need_restart` computation of the super-resilient loop, run.rs
lines 445-452: no child, or the child exited (status discarded), or the
status check errored.  Unlike `create_watchdog`, it never touches the
failure counter. -/
def superNeedRestart (s : SuperState) (e : SuperEnv) : Bool :=
  if s.child then
    match e.tryWait with
    | TryWaitRes.exited _ => true
    | TryWaitRes.stillRunning => false
    | TryWaitRes.checkErr => true
  else true

/-- One full iteration of the super-resilient watchdog loop body,
run.rs lines 443-513, for watchdog index `idx` (zero-based).  A restart
iteration first `pkill`s stray processes (lines 456-462), then spawns:
success stores the child, zeroes the counter and resets the backoff to
1 (lines 469-474); failure increments the counter, doubles the backoff
capping it at 300 seconds, and sleeps it (lines 475-482).  A
non-restart iteration probes health with `ps` and kills a child that is
neither runnable nor sleeping (lines 484-507).  Every iteration ends
with the staggered poll sleep of line 512. -/
def superStep (idx : Nat) (s : SuperState) (e : SuperEnv) : SuperState × List Effect :=
  let r :=
    if superNeedRestart s e then
      match e.spawn with
      | SpawnRes.ok =>
          ((⟨true, 0, 1⟩ : SuperState), [Effect.pkillStray, Effect.spawnAttempt])
      | SpawnRes.err =>
          let b := min (s.backoff * 2) BACKOFF_CAP
          ((⟨s.child, s.failures + 1, b⟩ : SuperState),
           [Effect.pkillStray, Effect.spawnAttempt, Effect.backoffSleep b])
    else
      match e.health with
      | HealthRes.probed true => (s, [])
      | HealthRes.probed false => ((⟨false, s.failures, s.backoff⟩ : SuperState), [Effect.killChild])
      | HealthRes.err => (s, [])
  (r.1, r.2 ++ [Effect.pollSleep (100 + idx * 50)])

/-- The post-loop shutdown of a super-resilient watchdog, run.rs lines
516-521: kill the owned child if present and release the handle. -/
def superShutdown (s : SuperState) : SuperState × List Effect :=
  if s.child then (⟨false, s.failures, s.backoff⟩, [Effect.killChild]) else (s, [])

/-- Run of one super-resilient watchdog loop over a finite trace, as
`runWD` but for the inline loop of run.rs lines 443-523. -/
def runSuper (idx : Nat) : SuperState → List (Bool × SuperEnv) → SuperState × List Effect × Bool
  | s, [] => (s, [], false)
  | s, (flag, e) :: rest =>
    if flag then
      let st := superStep idx s e
      let k := runSuper idx st.1 rest
      (k.1, st.2 ++ k.2.1, k.2.2)
    else
      ((superShutdown s).1, (superShutdown s).2, true)

/-- The join loop of `run_xmr_super_resilient`, run.rs lines 535-539:
the completed run of every spawned watchdog, in spawn order, each with
its zero-based index (which staggers its poll sleep).  The function
returns only once this whole list is built, that is, after every
watchdog thread has finished. -/
def superviseFrom (i : Nat) : List (List (Bool × SuperEnv)) → List (SuperState × List Effect × Bool)
  | [] => []
  | tr :: rest => runSuper i superInit tr :: superviseFrom (i + 1) rest

/-- All watchdog runs joined by `run_xmr_super_resilient` before it
returns, run.rs lines 433 and 535-539. -/
def superviseAll (traces : List (List (Bool × SuperEnv))) : List (SuperState × List Effect × Bool) :=
  superviseFrom 0 traces

/-! ### Faults inside the loop body

Neither watchdog loop body contains any `catch_unwind` (or other
catch construct): the `match` arms of run.rs lines 306-362 and 445-507
absorb every `Err` value an operation returns, but a Rust panic raised
anywhere inside the body unwinds straight out of the loop and
terminates the watchdog thread.  `wdStepFault` embeds the body of
`create_watchdog` under this unwinding semantics: an iteration input
optionally carries a fault raised by the runtime during the body, and,
with no catch boundary in the source, such a fault is the result of the
body. -/

/-- Iteration inputs extended with an optional runtime fault raised
inside the loop body. -/
structure WDEnvFault where
  tryWait : TryWaitRes
  spawn : SpawnRes
  fault : Option String
deriving Repr, DecidableEq

/-- The `create_watchdog` loop body under unwinding semantics: a fault
raised during the body propagates (no catch construct appears in run.rs
lines 300-376); a fault-free iteration is `wdStep`. -/
def wdStepFault (s : WDState) (e : WDEnvFault) : Except String (WDState × List Effect) :=
  match e.fault with
  | some msg => Except.error msg
  | none => Except.ok (wdStep s ⟨e.tryWait, e.spawn⟩)

/-- Fate of a watchdog thread: still looping (trace exhausted), cleanly
finished through the cancellation path, or terminated by a fault that
unwound out of the loop body. -/
inductive ThreadOutcome where
  | looping (s : WDState)
  | finished (s : WDState)
  | died (msg : String)
deriving Repr, DecidableEq

/-- Run of the `create_watchdog` thread under unwinding semantics. -/
def runWDFault : WDState → List (Bool × WDEnvFault) → ThreadOutcome
  | s, [] => ThreadOutcome.looping s
  | s, (flag, e) :: rest =>
    if flag then
      match wdStepFault s e with
      | Except.ok st => runWDFault st.1 rest
      | Except.error msg => ThreadOutcome.died msg
    else ThreadOutcome.finished (wdShutdown s).1

/-- A concrete fault message for the refutation below. -/
def faultMsg : String := "index out of range inside the loop body"

/-- Iteration inputs of a spawn-failure iteration of `create_watchdog`:
no child is owned, so the status check is irrelevant, and the spawn
attempt fails. -/
def spawnFailEnv : WDEnv := ⟨TryWaitRes.stillRunning, SpawnRes.err⟩

/-- State of the `create_watchdog` loop after `n` consecutive
spawn-failure iterations from the initial state. -/
def wdAfterFails : Nat → WDState
  | 0 => wdInit
  | n + 1 => (wdStep (wdAfterFails n) spawnFailEnv).1

/-! ## Helper lemmas -/

theorem get_xmr_path_of_homeMiss (env : LocEnv) (h : homeMiss env) :
    get_xmr_path env = locStep2 env := by
  unfold get_xmr_path
  cases hh : env.home with
  | none => rfl
  | some a => simp [h a hh]

theorem locStep2_of_cwdMiss (env : LocEnv) (h : cwdMiss env) :
    locStep2 env = locStep3 env := by
  unfold locStep2
  cases hc : env.cwd with
  | none => rfl
  | some d => simp [h d hc]

theorem locStep3_of_not_usr (env : LocEnv) (h : env.pathExists usrLocalCandidate = false) :
    locStep3 env = locStep4 env := by
  unfold locStep3
  simp [h]

theorem locStep4_of_whichMiss (env : LocEnv) (h : whichMiss env) :
    locStep4 env = Except.error (XmrError.EnvError notFoundMsg) := by
  unfold locStep4
  cases hw : env.whichOut with
  | none => rfl
  | some out => simp [h out hw]

theorem locStep4_isOk (env : LocEnv)
    (h : ∃ out, env.whichOut = some out ∧ out.trim ≠ "") :
    ∃ p, locStep4 env = Except.ok p := by
  obtain ⟨out, ho, hne⟩ := h
  refine ⟨out.trim, ?_⟩
  unfold locStep4
  simp [ho, hne]

theorem locStep3_isOk (env : LocEnv)
    (h : env.pathExists usrLocalCandidate = true
      ∨ (∃ out, env.whichOut = some out ∧ out.trim ≠ "")) :
    ∃ p, locStep3 env = Except.ok p := by
  by_cases hu : env.pathExists usrLocalCandidate = true
  · exact ⟨usrLocalCandidate, by unfold locStep3; simp [hu]⟩
  · rcases h with h | h
    · exact absurd h hu
    · obtain ⟨p, hp⟩ := locStep4_isOk env h
      refine ⟨p, ?_⟩
      unfold locStep3
      simp [hu, hp]

theorem locStep2_isOk (env : LocEnv)
    (h : (∃ d, env.cwd = some d ∧ env.pathExists (cwdCandidate d) = true)
      ∨ env.pathExists usrLocalCandidate = true
      ∨ (∃ out, env.whichOut = some out ∧ out.trim ≠ "")) :
    ∃ p, locStep2 env = Except.ok p := by
  rcases h with ⟨d, hd, hex⟩ | h
  · exact ⟨cwdCandidate d, by unfold locStep2; simp [hd, hex]⟩
  · obtain ⟨p, hp⟩ := locStep3_isOk env h
    unfold locStep2
    cases hc : env.cwd with
    | none => exact ⟨p, hp⟩
    | some d =>
      by_cases hex : env.pathExists (cwdCandidate d) = true
      · exact ⟨cwdCandidate d, by simp [hex]⟩
      · exact ⟨p, by simp [hex, hp]⟩

/-! ## Claim theorems: locator, permissions, hardening -/

/-- C5: the executable locator tries, in this exact order, the
HOME-derived path, the current-directory path, `/usr/local/bin/xmr`,
and a PATH lookup through `which`; it returns the first candidate that
exists, returns the not-found `EnvError` when none does, and in that
case `run_xmr_resilient` propagates the error with zero watchdog
threads created. -/
theorem C5_locator_order :
    (∀ env h, env.home = some h → env.pathExists (homeCandidate h) = true →
      get_xmr_path env = Except.ok (homeCandidate h))
  ∧ (∀ env d, homeMiss env → env.cwd = some d → env.pathExists (cwdCandidate d) = true →
      get_xmr_path env = Except.ok (cwdCandidate d))
  ∧ (∀ env, homeMiss env → cwdMiss env → env.pathExists usrLocalCandidate = true →
      get_xmr_path env = Except.ok usrLocalCandidate)
  ∧ (∀ env out, homeMiss env → cwdMiss env → env.pathExists usrLocalCandidate = false →
      env.whichOut = some out → out.trim ≠ "" →
      get_xmr_path env = Except.ok out.trim)
  ∧ (∀ env, homeMiss env → cwdMiss env → env.pathExists usrLocalCandidate = false →
      whichMiss env →
      get_xmr_path env = Except.error (XmrError.EnvError notFoundMsg))
  ∧ (∀ loc perm prio e, get_xmr_path loc = Except.error e →
      run_xmr_resilient_startup loc perm prio = (Except.error e, 0)) := by
  refine ⟨?_, ?_, ?_, ?_, ?_, ?_⟩
  · intro env h hh hex
    unfold get_xmr_path
    simp [hh, hex]
  · intro env d hm hc hex
    rw [get_xmr_path_of_homeMiss env hm]
    unfold locStep2
    simp [hc, hex]
  · intro env hm hc hu
    rw [get_xmr_path_of_homeMiss env hm, locStep2_of_cwdMiss env hc]
    unfold locStep3
    simp [hu]
  · intro env out hm hc hu hw hne
    rw [get_xmr_path_of_homeMiss env hm, locStep2_of_cwdMiss env hc,
      locStep3_of_not_usr env hu]
    unfold locStep4
    simp [hw, hne]
  · intro env hm hc hu hw
    rw [get_xmr_path_of_homeMiss env hm, locStep2_of_cwdMiss env hc,
      locStep3_of_not_usr env hu, locStep4_of_whichMiss env hw]
  · intro loc perm prio e hget
    unfold run_xmr_resilient_startup
    simp [hget]

/-- Witness for C5 at a concrete environment in which no candidate
exists and `which` fails. -/
theorem C5_locator_order_witness :
    get_xmr_path ⟨none, none, fun _ => false, none⟩
      = Except.error (XmrError.EnvError notFoundMsg)
    ∧ run_xmr_resilient_startup ⟨none, none, fun _ => false, none⟩
        ⟨0o644, true, true, true⟩ ⟨some true, some true, true, some true⟩
      = (Except.error (XmrError.EnvError notFoundMsg), 0) := by
  have h5 := C5_locator_order.2.2.2.2.1 ⟨none, none, fun _ => false, none⟩
    (fun h hh => by cases hh) (fun d hd => by cases hd) rfl (fun out ho => by cases ho)
  exact ⟨h5, C5_locator_order.2.2.2.2.2 ⟨none, none, fun _ => false, none⟩
    ⟨0o644, true, true, true⟩ ⟨some true, some true, true, some true⟩ _ h5⟩

/-- C10: when the HOME step of the locator yields nothing (HOME unset,
or the derived candidate absent), the locator proceeds and succeeds
whenever the current-directory candidate, `/usr/local/bin/xmr`, or the
`which` lookup yields a path. -/
theorem C10_home_fallback :
    ∀ env, homeMiss env →
      ((∃ d, env.cwd = some d ∧ env.pathExists (cwdCandidate d) = true)
        ∨ env.pathExists usrLocalCandidate = true
        ∨ (∃ out, env.whichOut = some out ∧ out.trim ≠ "")) →
      ∃ p, get_xmr_path env = Except.ok p := by
  intro env hm h
  rw [get_xmr_path_of_homeMiss env hm]
  exact locStep2_isOk env h

/-- Witness for C10: HOME unset, only the fixed system path exists. -/
theorem C10_home_fallback_witness :
    ∃ p, get_xmr_path ⟨none, none, fun _ => true, none⟩ = Except.ok p :=
  C10_home_fallback ⟨none, none, fun _ => true, none⟩
    (fun h hh => by cases hh) (Or.inr (Or.inl rfl))

/-- C7: the permission-fixing step runs `chmod +x` first and returns
success immediately when it succeeds; only on chmod failure does it
fall back to writing mode `0o755` directly; and it returns a
`PermissionError` exactly when both mechanisms fail. -/
theorem C7_permission_mechanisms :
    (∀ env, env.chmodOk = true →
      set_executable_permissions env = Except.ok (chmodPlusX env.mode0))
  ∧ (∀ env, env.chmodOk = false → env.metadataOk = true → env.setPermsOk = true →
      set_executable_permissions env = Except.ok 0o755)
  ∧ (∀ env : PermEnv,
      (∃ msg, set_executable_permissions env = Except.error (XmrError.PermissionError msg))
      ↔ (env.chmodOk = false ∧ ¬(env.metadataOk = true ∧ env.setPermsOk = true))) := by
  refine ⟨?_, ?_, ?_⟩
  · intro env h
    simp [set_executable_permissions, h]
  · intro env h1 h2 h3
    simp [set_executable_permissions, h1, h2, h3]
  · intro env
    obtain ⟨m, c, md, sp⟩ := env
    cases c <;> cases md <;> cases sp <;> simp [set_executable_permissions]

/-- Witness for C7 at concrete environments exercising the chmod path
and the fallback path. -/
theorem C7_permission_mechanisms_witness :
    set_executable_permissions ⟨0o644, true, false, false⟩ = Except.ok (chmodPlusX 0o644)
    ∧ set_executable_permissions ⟨0o644, false, true, true⟩ = Except.ok 0o755 :=
  ⟨C7_permission_mechanisms.1 ⟨0o644, true, false, false⟩ rfl,
   C7_permission_mechanisms.2.1 ⟨0o644, false, true, true⟩ rfl rfl rfl⟩

/-- C9: on an already-executable file (all execute bits set, so a
succeeding `chmod +x` leaves the bits unchanged), the permission-fixing
step returns success without changing the permission bits, and a second
application returns success with the same final permission state. -/
theorem C9_perm_idempotent :
    ∀ env : PermEnv, env.chmodOk = true → chmodPlusX env.mode0 = env.mode0 →
      set_executable_permissions env = Except.ok env.mode0
      ∧ applyPermTwice env = Except.ok env.mode0 := by
  intro env hc hx
  have h1 : set_executable_permissions env = Except.ok env.mode0 := by
    simp [set_executable_permissions, hc, hx]
  refine ⟨h1, ?_⟩
  unfold applyPermTwice
  rw [h1]
  simp [set_executable_permissions, hc, hx]

/-- Witness for C9 at mode `0o755`. -/
theorem C9_perm_idempotent_witness :
    set_executable_permissions ⟨0o755, true, true, true⟩ = Except.ok 0o755
    ∧ applyPermTwice ⟨0o755, true, true, true⟩ = Except.ok 0o755 :=
  C9_perm_idempotent ⟨0o755, true, true, true⟩ rfl (by decide)

/-- C8: the hardening step `set_process_priority` returns success for
every possible outcome of its underlying operations, so the startup
pipeline of `run_xmr_super_resilient`, which calls it through the
error-propagation operator, is wholly independent of the hardening
outcomes. -/
theorem C8_hardening_never_fatal :
    (∀ prio, ∃ ws, set_process_priority prio = Except.ok ws)
  ∧ (∀ loc perm p1 p2,
      run_xmr_super_resilient_startup loc perm p1
      = run_xmr_super_resilient_startup loc perm p2) := by
  refine ⟨fun prio => ⟨prioWarnings prio, rfl⟩, ?_⟩
  intro loc perm p1 p2
  unfold run_xmr_super_resilient_startup
  cases get_xmr_path loc <;> cases set_executable_permissions perm <;> rfl

theorem foldl_flagApply_false : ∀ ws : List FlagWrite, ws.foldl flagApply false = false := by
  intro ws
  induction ws with
  | nil => rfl
  | cons w rest ih =>
    cases w
    simpa [flagApply] using ih

theorem flagValue_ne_nil : ∀ ws : List FlagWrite, ws ≠ [] → flagValue ws = false := by
  intro ws h
  cases ws with
  | nil => exact absurd rfl h
  | cons w rest =>
    cases w
    unfold flagValue
    simpa [flagApply, flagInit] using foldl_flagApply_false rest

theorem superStep_backoff_le (idx : Nat) (s : SuperState) (e : SuperEnv)
    (h : s.backoff ≤ BACKOFF_CAP) : ((superStep idx s e).1).backoff ≤ BACKOFF_CAP := by
  unfold superStep
  cases hnr : superNeedRestart s e
  · cases hh : e.health with
    | probed r => cases r <;> simpa using h
    | err => simpa using h
  · cases hs : e.spawn with
    | ok => simp [BACKOFF_CAP]
    | err =>
      simp only
      exact min_le_right _ _

theorem runSuper_backoff_le (idx : Nat) :
    ∀ (inputs : List (Bool × SuperEnv)) (s : SuperState), s.backoff ≤ BACKOFF_CAP →
      ((runSuper idx s inputs).1).backoff ≤ BACKOFF_CAP := by
  intro inputs
  induction inputs with
  | nil => intro s h; simpa [runSuper] using h
  | cons p rest ih =>
    intro s h
    obtain ⟨flag, e⟩ := p
    cases flag
    · simp only [runSuper, if_neg Bool.false_ne_true]
      unfold superShutdown
      cases hc : s.child <;> simpa using h
    · simp only [runSuper, if_pos rfl]
      exact ih _ (superStep_backoff_le idx s e h)

theorem wdBackoff_succ (f : Nat) : wdBackoff (f + 1) = min (wdBackoff f * 2) 5120 := by
  unfold wdBackoff
  rcases le_or_lt 10 f with h | h
  · have h1 : min f 10 = 10 := Nat.min_eq_right h
    have h2 : min (f + 1) 10 = 10 := Nat.min_eq_right (le_trans h (Nat.le_succ f))
    rw [h1, h2]
    norm_num
  · have h1 : min f 10 = f := Nat.min_eq_left (Nat.le_of_lt h)
    have h2 : min (f + 1) 10 = f + 1 := Nat.min_eq_left h
    rw [h1, h2]
    have hx : 2 ^ f ≤ 2 ^ 9 := Nat.pow_le_pow_right (by norm_num) (by omega)
    have hcap : 5 * 2 ^ f * 2 ≤ 5120 := by
      have h9 : (2 : Nat) ^ 9 = 512 := by norm_num
      omega
    calc 5 * 2 ^ (f + 1) = 5 * 2 ^ f * 2 := by rw [pow_succ, mul_assoc]
    _ = min (5 * 2 ^ f * 2) 5120 := (Nat.min_eq_left hcap).symm

theorem wdBackoff_mono (f : Nat) : wdBackoff f ≤ wdBackoff (f + 1) := by
  unfold wdBackoff
  have hm : min f 10 ≤ min (f + 1) 10 := by omega
  exact Nat.mul_le_mul (Nat.le_refl 5) (Nat.pow_le_pow_right (by norm_num) hm)

theorem wdBackoff_le_cap (f : Nat) : wdBackoff f ≤ 5120 := by
  unfold wdBackoff
  have hx : 2 ^ min f 10 ≤ 2 ^ 10 :=
    Nat.pow_le_pow_right (by norm_num) (Nat.min_le_right f 10)
  have h10 : (2 : Nat) ^ 10 = 1024 := by norm_num
  omega

theorem runWD_exits :
    ∀ (inputs : List (Bool × WDEnv)) (s : WDState),
      (inputs.map Prod.fst).contains false = true →
      (runWD s inputs).2.2 = true ∧ ((runWD s inputs).1).child = false := by
  intro inputs
  induction inputs with
  | nil => intro s h; simp at h
  | cons p rest ih =>
    intro s h
    obtain ⟨flag, e⟩ := p
    cases flag
    · refine ⟨by simp [runWD], ?_⟩
      simp only [runWD, if_neg Bool.false_ne_true]
      unfold wdShutdown
      cases hc : s.child <;> simp [hc]
    · have h' : (rest.map Prod.fst).contains false = true := by
        simpa using h
      simp only [runWD, if_pos rfl]
      exact ih _ h'

theorem runWD_exit_only :
    ∀ (inputs : List (Bool × WDEnv)) (s : WDState),
      (runWD s inputs).2.2 = true → (inputs.map Prod.fst).contains false = true := by
  intro inputs
  induction inputs with
  | nil => intro s h; simp [runWD] at h
  | cons p rest ih =>
    intro s h
    obtain ⟨flag, e⟩ := p
    cases flag
    · simp
    · simp only [runWD, if_pos rfl] at h
      simpa using ih _ h

theorem runSuper_exits (idx : Nat) :
    ∀ (inputs : List (Bool × SuperEnv)) (s : SuperState),
      (inputs.map Prod.fst).contains false = true →
      (runSuper idx s inputs).2.2 = true ∧ ((runSuper idx s inputs).1).child = false := by
  intro inputs
  induction inputs with
  | nil => intro s h; simp at h
  | cons p rest ih =>
    intro s h
    obtain ⟨flag, e⟩ := p
    cases flag
    · refine ⟨by simp [runSuper], ?_⟩
      simp only [runSuper, if_neg Bool.false_ne_true]
      unfold superShutdown
      cases hc : s.child <;> simp [hc]
    · have h' : (rest.map Prod.fst).contains false = true := by
        simpa using h
      simp only [runSuper, if_pos rfl]
      exact ih _ h'

theorem runSuper_exit_only (idx : Nat) :
    ∀ (inputs : List (Bool × SuperEnv)) (s : SuperState),
      (runSuper idx s inputs).2.2 = true → (inputs.map Prod.fst).contains false = true := by
  intro inputs
  induction inputs with
  | nil => intro s h; simp [runSuper] at h
  | cons p rest ih =>
    intro s h
    obtain ⟨flag, e⟩ := p
    cases flag
    · simp
    · simp only [runSuper, if_pos rfl] at h
      simpa using ih _ h

theorem superviseFrom_length :
    ∀ (traces : List (List (Bool × SuperEnv))) (i : Nat),
      (superviseFrom i traces).length = traces.length := by
  intro traces
  induction traces with
  | nil => intro i; rfl
  | cons tr rest ih => intro i; simp [superviseFrom, ih]

theorem superviseFrom_exits :
    ∀ (traces : List (List (Bool × SuperEnv))) (i : Nat),
      (∀ tr ∈ traces, (tr.map Prod.fst).contains false = true) →
      ∀ r ∈ superviseFrom i traces, r.2.2 = true ∧ (r.1).child = false := by
  intro traces
  induction traces with
  | nil => intro i h r hr; simp [superviseFrom] at hr
  | cons tr rest ih =>
    intro i h r hr
    simp only [superviseFrom, List.mem_cons] at hr
    rcases hr with hr | hr
    · subst hr
      exact runSuper_exits i tr superInit (h tr (List.mem_cons_self tr rest))
    · exact ih (i + 1) (fun t ht => h t (List.mem_cons_of_mem tr ht)) r hr

theorem runWDFault_no_fault :
    ∀ (inputs : List (Bool × WDEnvFault)) (s : WDState),
      (∀ p ∈ inputs, (Prod.snd p).fault = none) →
      ∀ msg, runWDFault s inputs ≠ ThreadOutcome.died msg := by
  intro inputs
  induction inputs with
  | nil => intro s h msg; simp [runWDFault]
  | cons p rest ih =>
    intro s h msg
    obtain ⟨flag, e⟩ := p
    cases flag
    · simp [runWDFault]
    · have he : e.fault = none := h (true, e) (List.mem_cons_self _ _)
      simp only [runWDFault, if_pos rfl, wdStepFault, he]
      exact ih _ (fun q hq => h q (List.mem_cons_of_mem _ hq)) msg

/-! ## Claim theorems: flag, backoff, watchdogs -/

/-- C3: the cancellation flag is initialised to `true` (running); the
only store the program performs on it is the `false` (stopping) store
of the Ctrl-C handler, so after any nonempty sequence of stores the
flag reads stopping, once stopping it stays stopping under any further
stores, and the value never goes back up along an execution: at most
one transition ever happens. -/
theorem C3_flag_one_transition :
    flagValue [] = true
  ∧ (∀ ws, ws ≠ [] → flagValue ws = false)
  ∧ (∀ ws ext, flagValue ws = false → flagValue (ws ++ ext) = false)
  ∧ (∀ ws ext, flagValue (ws ++ ext) = true → flagValue ws = true) := by
  refine ⟨rfl, flagValue_ne_nil, ?_, ?_⟩
  · intro ws ext h
    cases ws with
    | nil => simp [flagValue, flagInit] at h
    | cons w rest => exact flagValue_ne_nil _ (by simp)
  · intro ws ext h
    cases ws with
    | nil => rfl
    | cons w rest =>
      rw [flagValue_ne_nil ((w :: rest) ++ ext) (by simp)] at h
      exact absurd h (by simp)

/-- Witness for C3: one handler invocation flips the flag to
stopping. -/
theorem C3_flag_one_transition_witness :
    flagValue [FlagWrite.handlerStore] = false :=
  C3_flag_one_transition.2.1 [FlagWrite.handlerStore] (by simp)

/-- C1: in a super-resilient watchdog, a failed spawn attempt sets the
backoff to `min(previous * 2, 300)` seconds, which is non-decreasing
while the backoff is within the 300-second (five-minute) cap; over any
run from the initial state the backoff never exceeds the cap; a
successful spawn resets it to the floor value 1, which is also the
initial value.  In `create_watchdog` the backoff derived from the
failure counter obeys the same shape with floor 5 and cap 5120
seconds: each consecutive failure doubles it up to the cap, it is
non-decreasing, and it never exceeds the cap. -/
theorem C1_backoff_law :
    (∀ idx s e, superNeedRestart s e = true → e.spawn = SpawnRes.err →
      ((superStep idx s e).1).backoff = min (s.backoff * 2) BACKOFF_CAP)
  ∧ (∀ idx s e, superNeedRestart s e = true → e.spawn = SpawnRes.err →
      s.backoff ≤ BACKOFF_CAP → s.backoff ≤ ((superStep idx s e).1).backoff)
  ∧ (∀ idx inputs, ((runSuper idx superInit inputs).1).backoff ≤ BACKOFF_CAP)
  ∧ (∀ idx s e, superNeedRestart s e = true → e.spawn = SpawnRes.ok →
      ((superStep idx s e).1).backoff = 1)
  ∧ superInit.backoff = 1
  ∧ (∀ f, wdBackoff (f + 1) = min (wdBackoff f * 2) 5120
        ∧ wdBackoff f ≤ wdBackoff (f + 1) ∧ wdBackoff (f + 1) ≤ 5120) := by
  refine ⟨?_, ?_, ?_, ?_, rfl, ?_⟩
  · intro idx s e h1 h2
    simp [superStep, h1, h2]
  · intro idx s e h1 h2 h3
    simp [superStep, h1, h2, BACKOFF_CAP]
    simp [BACKOFF_CAP] at h3
    omega
  · intro idx inputs
    exact runSuper_backoff_le idx inputs superInit (by simp [superInit, BACKOFF_CAP])
  · intro idx s e h1 h2
    simp [superStep, h1, h2]
  · exact fun f => ⟨wdBackoff_succ f, wdBackoff_mono f, wdBackoff_le_cap (f + 1)⟩

/-- Witness for C1 at concrete states: a failed spawn from backoff 4
yields `min (4 * 2) 300`, and a successful spawn from backoff 7 resets
to 1. -/
theorem C1_backoff_law_witness :
    ((superStep 0 ⟨false, 0, 4⟩ ⟨TryWaitRes.stillRunning, SpawnRes.err, HealthRes.err⟩).1).backoff
      = min (4 * 2) BACKOFF_CAP
    ∧ ((superStep 0 ⟨false, 2, 7⟩ ⟨TryWaitRes.stillRunning, SpawnRes.ok, HealthRes.err⟩).1).backoff
      = 1 :=
  ⟨C1_backoff_law.1 0 ⟨false, 0, 4⟩ ⟨TryWaitRes.stillRunning, SpawnRes.err, HealthRes.err⟩ rfl rfl,
   C1_backoff_law.2.2.2.1 0 ⟨false, 2, 7⟩ ⟨TryWaitRes.stillRunning, SpawnRes.ok, HealthRes.err⟩ rfl rfl⟩

/-- C2: when a loop iteration of either watchdog reads the flag as
stopping, the loop exits (and this read is the sole exit path: an
exited run always contains a stopping read), the owned child, if any,
is killed, and the handle is released, the final state owning no
child.  The `run_xmr_super_resilient` join loop returns the completed
run of every one of its watchdogs: one entry per spawned watchdog, and
under cancellation every one of them has exited with its child handle
released. -/
theorem C2_cancellation_shutdown :
    (∀ s inputs, (List.map Prod.fst inputs).contains false = true →
      (runWD s inputs).2.2 = true ∧ ((runWD s inputs).1).child = false)
  ∧ (∀ s inputs, (runWD s inputs).2.2 = true →
      (List.map Prod.fst inputs).contains false = true)
  ∧ (∀ s : WDState, s.child = true →
      wdShutdown s = (⟨false, s.failures⟩, [Effect.killChild]))
  ∧ (∀ idx s inputs, (List.map Prod.fst inputs).contains false = true →
      (runSuper idx s inputs).2.2 = true ∧ ((runSuper idx s inputs).1).child = false)
  ∧ (∀ idx s inputs, (runSuper idx s inputs).2.2 = true →
      (List.map Prod.fst inputs).contains false = true)
  ∧ (∀ s : SuperState, s.child = true →
      superShutdown s = (⟨false, s.failures, s.backoff⟩, [Effect.killChild]))
  ∧ (∀ traces, (superviseAll traces).length = traces.length)
  ∧ (∀ traces, (∀ tr ∈ traces, (List.map Prod.fst tr).contains false = true) →
      ∀ r ∈ superviseAll traces, r.2.2 = true ∧ (r.1).child = false) := by
  refine ⟨fun s inputs h => runWD_exits inputs s h,
    fun s inputs h => runWD_exit_only inputs s h,
    ?_,
    fun idx s inputs h => runSuper_exits idx inputs s h,
    fun idx s inputs h => runSuper_exit_only idx inputs s h,
    ?_,
    fun traces => superviseFrom_length traces 0,
    fun traces h => superviseFrom_exits traces 0 h⟩
  · intro s h
    unfold wdShutdown
    simp [h]
  · intro s h
    unfold superShutdown
    simp [h]

/-- Witness for C2: a one-iteration trace whose flag reads stopping
makes a watchdog that owns a child exit with the child killed. -/
theorem C2_cancellation_shutdown_witness :
    (runWD ⟨true, 2⟩ [(false, ⟨TryWaitRes.stillRunning, SpawnRes.ok⟩)]).2.2 = true
    ∧ ((runWD ⟨true, 2⟩ [(false, ⟨TryWaitRes.stillRunning, SpawnRes.ok⟩)]).1).child = false :=
  C2_cancellation_shutdown.1 ⟨true, 2⟩ [(false, ⟨TryWaitRes.stillRunning, SpawnRes.ok⟩)]
    (by decide)

/-- C4 counterexample: the claim quantifies over every watchdog, but a
super-resilient watchdog discards the exit status of its child (run.rs
line 448) and its counter tracks only spawn failures.  At a state with
5 accumulated failures, an iteration in which the child exits cleanly
(zero status) and the subsequent spawn attempt fails leaves the
counter at 6; under the claim the clean exit resets the counter to
zero, so it could be at most 1 after that iteration. -/
theorem C4_counterexample_super_clean_exit :
    ((superStep 0 ⟨true, 5, 4⟩ ⟨TryWaitRes.exited true, SpawnRes.err, HealthRes.err⟩).1).failures = 6
    ∧ ¬ ((superStep 0 ⟨true, 5, 4⟩
        ⟨TryWaitRes.exited true, SpawnRes.err, HealthRes.err⟩).1).failures ≤ 1 := by
  decide

/-- C4 amended: in the resilient-mode watchdog `create_watchdog`, a
child exit with nonzero status or an errored status check increments
the consecutive-failure counter, a clean (zero-status) exit resets it
to zero, and after five consecutive failed spawn attempts the counter
is exactly 5 and the next iteration inserts one 30-second pause before
its spawn attempt.  (The super-resilient watchdogs count only
consecutive spawn failures and have no long-pause branch.) -/
theorem C4_amended_failure_counting :
    (∀ s : WDState, s.child = true →
      ((wdCheck s (TryWaitRes.exited false)).1).failures = s.failures + 1)
  ∧ (∀ s : WDState, s.child = true →
      ((wdCheck s TryWaitRes.checkErr).1).failures = s.failures + 1)
  ∧ (∀ s : WDState, s.child = true →
      ((wdCheck s (TryWaitRes.exited true)).1).failures = 0)
  ∧ (wdAfterFails 5).failures = 5
  ∧ (wdStep (wdAfterFails 5) spawnFailEnv).2 =
      [Effect.longPause 30, Effect.spawnAttempt, Effect.backoffSleep 320,
        Effect.pollSleep 100] := by
  refine ⟨?_, ?_, ?_, by decide, by decide⟩
  · intro s h
    simp [wdCheck, h]
  · intro s h
    simp [wdCheck, h]
  · intro s h
    simp [wdCheck, h]

/-- Witness for C4 (amended) at a concrete state owning a child with 3
accumulated failures. -/
theorem C4_amended_failure_counting_witness :
    ((wdCheck ⟨true, 3⟩ (TryWaitRes.exited false)).1).failures = 3 + 1
    ∧ ((wdCheck ⟨true, 3⟩ (TryWaitRes.exited true)).1).failures = 0 :=
  ⟨C4_amended_failure_counting.1 ⟨true, 3⟩ rfl,
   C4_amended_failure_counting.2.2.1 ⟨true, 3⟩ rfl⟩

/-- C6 counterexample: the watchdog loop bodies contain no
`catch_unwind` or other catch construct, so under unwinding semantics a
fault raised inside one loop iteration terminates the watchdog thread
(`ThreadOutcome.died`) instead of being converted into a log line and a
no-child continuation, refuting the claim that no fault inside one
iteration ever terminates the thread. -/
theorem C6_counterexample_fault_kills_thread :
    runWDFault wdInit [(true, ⟨TryWaitRes.stillRunning, SpawnRes.ok, some faultMsg⟩)]
      = ThreadOutcome.died faultMsg := rfl

/-- C6 amended: every error a fallible operation of the loop body
returns (a failed spawn, an errored status check) is absorbed by the
`match` arms of the body — a fault-free iteration always produces an
`ok` continuation state — so over any fault-free trace the watchdog
thread never dies; but an actual panic is not caught and terminates
the thread. -/
theorem C6_amended_fault_boundary :
    (∀ s e, e.fault = none →
      wdStepFault s e = Except.ok (wdStep s ⟨e.tryWait, e.spawn⟩))
  ∧ (∀ s inputs, (∀ p ∈ inputs, (Prod.snd p).fault = none) →
      ∀ msg, runWDFault s inputs ≠ ThreadOutcome.died msg) := by
  refine ⟨?_, fun s inputs h msg => runWDFault_no_fault inputs s h msg⟩
  intro s e h
  simp [wdStepFault, h]

/-- Witness for C6 (amended): a fault-free iteration with a failed
spawn does not kill the thread. -/
theorem C6_amended_fault_boundary_witness :
    runWDFault wdInit [(true, ⟨TryWaitRes.exited false, SpawnRes.err, none⟩)]
      ≠ ThreadOutcome.died faultMsg :=
  C6_amended_fault_boundary.2 wdInit
    [(true, ⟨TryWaitRes.exited false, SpawnRes.err, none⟩)] (by decide) faultMsg
